import Mathlib

/-!
Shallow embedding of the core of the gemstone memory game:
the round state machine (`GameEngine`), the variation selector
(`VariationManager`) and the reward calculator (`TicketManager`).

Modelling conventions:
* JavaScript numbers are modelled as rationals (`ℚ`); counters as `ℕ`.
* `Math.round` is round-half-up (`jsRound`).
* Randomness (`Math.random()`) is determinized: every operation that
  draws randomness takes an explicit stream of natural numbers and
  `Math.floor(Math.random() * n)` becomes `head % n` (`draw`), so that
  every possible outcome of the random source corresponds to some stream.
* JavaScript array indexing (which yields `undefined` out of bounds,
  including at negative indices) is modelled with `Option` (`getIntIdx`).
* The TypeScript `Set` of shown tutorials is modelled as a list with
  membership-respecting insertion.
-/

/-- Gem symbols, in TypeScript enum declaration order
(`Object.values(GemstoneType)` enumerates them in this order). -/
inductive Gem where
  | EMERALD
  | TRILLION
  | MARQUISE
  | CUSHION
deriving DecidableEq

/-- Gameplay variations (TypeScript enum `GameVariation`). -/
inductive GameVariation where
  | NONE
  | REVERSE
  | GHOST
  | SPEED_CHAOS
  | COLOR_SHUFFLE
  | SELECTIVE_ATTENTION
  | REVERSE_COMBINATION
deriving DecidableEq

/-- Round state machine states (TypeScript enum `GameState`). -/
inductive GameState where
  | INITIALIZATION
  | CALIBRATION
  | VARIATION_INTRO
  | PATTERN_DISPLAY
  | PLAYER_INPUT
  | ROUND_COMPLETE
  | ROUND_FAILED
deriving DecidableEq

/-- JavaScript `Math.round`: half-up rounding (toward positive infinity). -/
def jsRound (x : ℚ) : ℤ := ⌊x + 1/2⌋

/-- Determinized `Math.floor(Math.random() * n)`: consume the head of the
random stream, reduced mod `n`, and return the rest of the stream. -/
def draw (rand : List ℕ) (n : ℕ) : ℕ × List ℕ := (rand.headI % n, rand.tail)

/-- JavaScript array access `l[i]` for a possibly negative index:
`undefined` (here `none`) out of bounds. -/
def getIntIdx (l : List α) (i : ℤ) : Option α :=
  if i < 0 then none else l[i.toNat]?

/-- JavaScript destructuring swap `[l[i], l[j]] = [l[j], l[i]]`:
both reads happen before the writes; out of bounds leaves `l` unchanged
(never happens at the call sites, where both indices are in bounds). -/
def listSwap (l : List α) (i j : ℕ) : List α :=
  match l[i]?, l[j]? with
  | some a, some b => (l.set i b).set j a
  | _, _ => l

/-- Static game configuration (`GAME_CONFIG` in `constants.ts`). -/
structure GameConfig where
  initialPatternLength : ℕ
  initialTimerSeconds : ℚ
  initialDisplaySpeed : ℚ
  minTimerSeconds : ℚ
  minDisplaySpeed : ℚ
  timerDecreasePerRound : ℚ
  speedDecreasePerRound : ℚ
  lengthIncreaseInterval : ℕ

def GAME_CONFIG : GameConfig where
  initialPatternLength := 4
  initialTimerSeconds := 8
  initialDisplaySpeed := 750
  minTimerSeconds := 3
  minDisplaySpeed := 300
  timerDecreasePerRound := 1/4
  speedDecreasePerRound := 25
  lengthIncreaseInterval := 3

/-- `Object.values(GemstoneType)` in declaration order. -/
def gemTypes : List Gem := [Gem.EMERALD, Gem.TRILLION, Gem.MARQUISE, Gem.CUSHION]

/-! ## Ticket economy configuration (`TicketConfig` in `yaml-loader.ts`)

Only the fields the core `TicketManager` logic reads are embedded;
presentation-only sections (`display`, `animations`, `sounds`, `tracking`,
`disabled_variation_penalties`, `rtp_target`, `player_distribution`) are
never consulted by `TicketManager` and are omitted. -/

structure DifficultySetting where
  name : String
  reward_multiplier : ℚ
  pattern_display_time_multiplier : ℚ
  response_time_multiplier : ℚ
  description : String
deriving DecidableEq

structure DemoConfig where
  enabled : Bool
  starting_balance : ℚ
  allow_reset : Bool
  show_statistics : Bool
deriving DecidableEq

structure GameFeeConfig where
  cost_to_play : ℚ
  ticket_precision : ℕ
deriving DecidableEq

structure VariationBonuses where
  none : ℚ
  reverse : ℚ
  ghost : ℚ
  speed_chaos : ℚ
  color_shuffle : ℚ
  selective : ℚ
  reverse_combo : ℚ
deriving DecidableEq

structure FeedbackThresholds where
  small : ℚ
  medium : ℚ
  large : ℚ
  mega : ℚ
deriving DecidableEq

structure TicketLimits where
  max_balance : ℚ
  min_balance : ℚ
  max_single_payout : ℚ
  max_round : ℕ
deriving DecidableEq

structure TicketConfig where
  demo : DemoConfig
  game : GameFeeConfig
  difficulty_settings : List (String × DifficultySetting)
  default_difficulty : String
  base_reward : ℚ
  round_multipliers : List ℚ
  variation_bonuses : VariationBonuses
  feedback_thresholds : FeedbackThresholds
  limits : TicketLimits
deriving DecidableEq

/-! ## TicketManager -/

structure TicketManager where
  config : TicketConfig
  balance : ℚ
  totalEarned : ℚ
  totalSpent : ℚ
  gamesPlayed : ℕ
  highestRound : ℕ
  currentDifficulty : String
deriving DecidableEq

namespace TicketManager

/-- Constructor `new TicketManager(config)`. -/
def new (config : TicketConfig) : TicketManager where
  config := config
  balance := config.demo.starting_balance
  totalEarned := 0
  totalSpent := 0
  gamesPlayed := 0
  highestRound := 0
  currentDifficulty := config.default_difficulty

def getBalance (tm : TicketManager) : ℚ := tm.balance

def getGameCost (tm : TicketManager) : ℚ := tm.config.game.cost_to_play

def canAffordGame (tm : TicketManager) : Bool :=
  tm.config.game.cost_to_play ≤ tm.balance

/-- `deductGameCost` returns the boolean result together with the updated
manager (mutation made explicit). -/
def deductGameCost (tm : TicketManager) : Bool × TicketManager :=
  if ¬ tm.canAffordGame then (false, tm)
  else
    (true, { tm with
      balance := tm.balance - tm.config.game.cost_to_play
      totalSpent := tm.totalSpent + tm.config.game.cost_to_play
      gamesPlayed := tm.gamesPlayed + 1 })

def addReward (tm : TicketManager) (amount : ℚ) : TicketManager :=
  { tm with
    balance := min (tm.balance + amount) tm.config.limits.max_balance
    totalEarned := tm.totalEarned + amount }

def getRoundMultiplier (tm : TicketManager) (round : ℕ) : ℚ :=
  let multipliers := tm.config.round_multipliers
  if round = 0 then 0
  else if round ≤ multipliers.length then multipliers.getD (round - 1) 0
  else 8 + ((round : ℚ) - 20) * 1

/-- Lookup in the bonus table; the source uses `|| 1.00`, so a stored value
of `0` (falsy in JavaScript) also falls back to `1.00`. -/
def getVariationBonus (tm : TicketManager) (variation : GameVariation) : ℚ :=
  let b : ℚ :=
    match variation with
    | GameVariation.NONE => tm.config.variation_bonuses.none
    | GameVariation.REVERSE => tm.config.variation_bonuses.reverse
    | GameVariation.GHOST => tm.config.variation_bonuses.ghost
    | GameVariation.SPEED_CHAOS => tm.config.variation_bonuses.speed_chaos
    | GameVariation.COLOR_SHUFFLE => tm.config.variation_bonuses.color_shuffle
    | GameVariation.SELECTIVE_ATTENTION => tm.config.variation_bonuses.selective
    | GameVariation.REVERSE_COMBINATION => tm.config.variation_bonuses.reverse_combo
  if b = 0 then 1 else b

def getDifficultyMultiplier (tm : TicketManager) : ℚ :=
  match tm.config.difficulty_settings.lookup tm.currentDifficulty with
  | some difficulty => difficulty.reward_multiplier
  | none => 1

def roundToTicketPrecision (tm : TicketManager) (value : ℚ) : ℚ :=
  let multiplier : ℚ := 10 ^ tm.config.game.ticket_precision
  (jsRound (value * multiplier) : ℚ) / multiplier

def calculateReward (tm : TicketManager) (round : ℕ) (variation : GameVariation) : ℚ :=
  let baseReward := tm.config.base_reward
  let roundMultiplier := tm.getRoundMultiplier round
  let variationBonus := tm.getVariationBonus variation
  let difficultyMultiplier := tm.getDifficultyMultiplier
  let reward := baseReward * roundMultiplier * variationBonus * difficultyMultiplier
  let clamped := min reward tm.config.limits.max_single_payout
  tm.roundToTicketPrecision clamped

def getCurrentDifficulty (tm : TicketManager) : String := tm.currentDifficulty

def setDifficulty (tm : TicketManager) (difficulty : String) : TicketManager :=
  if (tm.config.difficulty_settings.lookup difficulty).isSome then
    { tm with currentDifficulty := difficulty }
  else tm

def updateHighestRound (tm : TicketManager) (round : ℕ) : TicketManager :=
  if tm.highestRound < round then { tm with highestRound := round } else tm

def getRTP (tm : TicketManager) : ℚ :=
  if tm.totalSpent = 0 then 0 else tm.totalEarned / tm.totalSpent

end TicketManager

/-! ## VariationManager -/

structure VariationManager where
  currentVariation : Option GameVariation
  previousVariation : Option GameVariation
  combinationBase : Option GameVariation
  tutorialsShown : List GameVariation
  variationStartRound : ℕ
deriving DecidableEq

namespace VariationManager

/-- Fresh manager (all class field initializers). -/
def new : VariationManager where
  currentVariation := none
  previousVariation := none
  combinationBase := none
  tutorialsShown := []
  variationStartRound := 0

/-- Unlock schedule: which variations are available at a given round. -/
def getAvailableVariations (round : ℕ) : List GameVariation :=
  if round = 1 then []
  else if round ≤ 4 then [GameVariation.GHOST]
  else if round ≤ 7 then [GameVariation.GHOST, GameVariation.SELECTIVE_ATTENTION]
  else if round ≤ 10 then
    [GameVariation.GHOST, GameVariation.SELECTIVE_ATTENTION, GameVariation.SPEED_CHAOS]
  else if round ≤ 13 then
    [GameVariation.GHOST, GameVariation.SELECTIVE_ATTENTION, GameVariation.SPEED_CHAOS,
      GameVariation.COLOR_SHUFFLE]
  else if round ≤ 16 then
    [GameVariation.GHOST, GameVariation.SELECTIVE_ATTENTION, GameVariation.SPEED_CHAOS,
      GameVariation.COLOR_SHUFFLE, GameVariation.REVERSE]
  else [GameVariation.REVERSE_COMBINATION]

/-- Select a variation for the given round, consuming randomness.
Returns the selected variation (or `none` at round 1), the updated manager
state, and the rest of the random stream. -/
def selectVariation (vm : VariationManager) (round : ℕ) (rand : List ℕ) :
    Option GameVariation × VariationManager × List ℕ :=
  let available := getAvailableVariations round
  if available.length = 0 then (none, vm, rand)
  else if (round = 2 ∨ (2 < round ∧ (round - 2) % 3 = 0)) ∨
      vm.currentVariation = none then
    let vm1 := { vm with variationStartRound := round }
    if 17 ≤ round then
      let baseVariations := [GameVariation.GHOST, GameVariation.SPEED_CHAOS,
        GameVariation.COLOR_SHUFFLE, GameVariation.SELECTIVE_ATTENTION]
      let filtered :=
        match vm1.combinationBase with
        | some b => baseVariations.filter (fun v => v ≠ b)
        | none => baseVariations
      let dj := draw rand filtered.length
      let vm2 := { vm1 with
        combinationBase := some (filtered.getD dj.1 GameVariation.NONE)
        currentVariation := some GameVariation.REVERSE_COMBINATION
        previousVariation := some GameVariation.REVERSE_COMBINATION }
      (some GameVariation.REVERSE_COMBINATION, vm2, dj.2)
    else
      let filtered :=
        match vm1.previousVariation with
        | some p => available.filter (fun v => v ≠ p)
        | none => available
      let pool := if 0 < filtered.length then filtered else available
      let dj := draw rand pool.length
      let sel := pool.getD dj.1 GameVariation.NONE
      let vm2 := { vm1 with
        currentVariation := some sel
        previousVariation := some sel }
      (some sel, vm2, dj.2)
  else
    (vm.currentVariation, vm, rand)

def getCombinationBase (vm : VariationManager) : Option GameVariation :=
  vm.combinationBase

/-- Expected input order under a variation. -/
def getExpectedInput (pattern : List Gem) (variation : GameVariation) : List Gem :=
  if variation = GameVariation.REVERSE ∨ variation = GameVariation.REVERSE_COMBINATION then
    pattern.reverse
  else pattern

def hasShownTutorial (vm : VariationManager) (variation : GameVariation) : Bool :=
  vm.tutorialsShown.contains variation

def markTutorialShown (vm : VariationManager) (variation : GameVariation) : VariationManager :=
  if vm.tutorialsShown.contains variation then vm
  else { vm with tutorialsShown := variation :: vm.tutorialsShown }

def reset (_vm : VariationManager) : VariationManager := new

end VariationManager

/-! ## GameEngine -/

structure GameEngine where
  state : GameState
  round : ℕ
  pattern : List Gem
  playerInput : List Gem
  currentVariation : GameVariation
  previousVariation : Option GameVariation
  currentCombinationBase : Option GameVariation
  variationStartRound : ℕ
  timerSeconds : ℚ
  displaySpeed : ℚ
  score : ℤ
  ticketManager : Option TicketManager
  lastReward : ℚ
  variationManager : VariationManager
deriving DecidableEq

namespace GameEngine

def updateDisplaySpeed (e : GameEngine) : GameEngine :=
  if e.round = 1 then { e with displaySpeed := 1000 }
  else
    let decrease := (e.round : ℚ) * GAME_CONFIG.speedDecreasePerRound
    let speed := max GAME_CONFIG.minDisplaySpeed (GAME_CONFIG.initialDisplaySpeed - decrease)
    { e with displaySpeed := speed }

/-- Body of the private `initialize()` method. -/
def initCore (e : GameEngine) : GameEngine :=
  let e1 := { e with
    state := GameState.INITIALIZATION
    round := 1
    pattern := []
    playerInput := []
    score := 0
    currentVariation := GameVariation.NONE
    previousVariation := none
    currentCombinationBase := none
    variationStartRound := 0 }
  e1.updateDisplaySpeed

/-- Constructor `new GameEngine(ticketManager?)`: field initializers
followed by `initialize()`. -/
def new (tm : Option TicketManager) : GameEngine :=
  initCore
    { state := GameState.INITIALIZATION
      round := 1
      pattern := []
      playerInput := []
      currentVariation := GameVariation.NONE
      previousVariation := none
      currentCombinationBase := none
      variationStartRound := 0
      timerSeconds := GAME_CONFIG.initialTimerSeconds
      displaySpeed := GAME_CONFIG.initialDisplaySpeed
      score := 0
      ticketManager := tm
      lastReward := 0
      variationManager := VariationManager.new }

def getPatternLength (e : GameEngine) : ℕ :=
  if e.round = 1 then 4
  else
    GAME_CONFIG.initialPatternLength +
      (e.round - 1) / GAME_CONFIG.lengthIncreaseInterval

/-- Fisher-Yates shuffle over the 4-gem list (loop indices 3, 2, 1). -/
def generateCalibrationPattern (rand : List ℕ) : List Gem × List ℕ :=
  let allGems := [Gem.EMERALD, Gem.TRILLION, Gem.MARQUISE, Gem.CUSHION]
  let d3 := draw rand 4
  let l3 := listSwap allGems 3 d3.1
  let d2 := draw d3.2 3
  let l2 := listSwap l3 2 d2.1
  let d1 := draw d2.2 2
  let l1 := listSwap l2 1 d1.1
  (l1, d1.2)

/-- Loop body of `generatePattern`: push `n` uniformly random gems. -/
def randomGems : ℕ → List ℕ → List Gem × List ℕ
  | 0, rand => ([], rand)
  | n + 1, rand =>
    let dj := draw rand gemTypes.length
    let rest := randomGems n dj.2
    (gemTypes.getD dj.1 Gem.EMERALD :: rest.1, rest.2)

def generatePattern (e : GameEngine) (rand : List ℕ) : GameEngine × List ℕ :=
  let gems := randomGems e.getPatternLength rand
  ({ e with pattern := gems.1 }, gems.2)

def checkForNewVariation (e : GameEngine) (rand : List ℕ) : GameEngine × List ℕ :=
  let sel := e.variationManager.selectVariation e.round rand
  let newVariation := sel.1
  let vmgr := sel.2.1
  let rand1 := sel.2.2
  match newVariation with
  | some v =>
    if v ≠ e.currentVariation then
      let e1 := { e with
        currentVariation := v
        currentCombinationBase := vmgr.getCombinationBase
        variationStartRound := e.round
        variationManager := vmgr }
      if ¬ vmgr.hasShownTutorial v then
        ({ e1 with
          state := GameState.VARIATION_INTRO
          variationManager := vmgr.markTutorialShown v }, rand1)
      else (e1, rand1)
    else
      ({ e with
        currentVariation := v
        currentCombinationBase := vmgr.getCombinationBase
        variationManager := vmgr }, rand1)
  | none => ({ e with variationManager := vmgr }, rand1)

def startGame (e : GameEngine) (rand : List ℕ) : GameEngine × List ℕ :=
  if e.round = 1 then
    let p := generateCalibrationPattern rand
    ({ e with state := GameState.CALIBRATION, pattern := p.1 }, p.2)
  else
    let s1 := e.checkForNewVariation rand
    let s2 := s1.1.generatePattern s1.2
    if s2.1.state ≠ GameState.VARIATION_INTRO then
      ({ s2.1 with state := GameState.PATTERN_DISPLAY }, s2.2)
    else s2

def startPatternDisplay (e : GameEngine) : GameEngine :=
  { e with state := GameState.PATTERN_DISPLAY, playerInput := [] }

def updateTimerForRound (e : GameEngine) : GameEngine :=
  if e.round = 1 then { e with timerSeconds := 10 }
  else
    let decrease := (e.round : ℚ) * GAME_CONFIG.timerDecreasePerRound
    let timer := max GAME_CONFIG.minTimerSeconds (GAME_CONFIG.initialTimerSeconds - decrease)
    { e with timerSeconds := timer }

def startPlayerInput (e : GameEngine) : GameEngine :=
  ({ e with state := GameState.PLAYER_INPUT, playerInput := [] }).updateTimerForRound

/-- Expected gem at the current input position (reverse-indexed under
Reverse / ReverseCombination), `none` when the index is out of bounds. -/
def expectedGem (e : GameEngine) : Option Gem :=
  let currentIndex := e.playerInput.length
  if e.currentVariation = GameVariation.REVERSE ∨
      e.currentVariation = GameVariation.REVERSE_COMBINATION then
    getIntIdx e.pattern ((e.pattern.length : ℤ) - 1 - (currentIndex : ℤ))
  else
    getIntIdx e.pattern (currentIndex : ℤ)

def calculateRoundScore (e : GameEngine) : ℤ :=
  let baseScore : ℤ := 100 * (e.round : ℤ)
  if e.currentVariation ≠ GameVariation.NONE then jsRound ((baseScore : ℚ) * (23/20))
  else baseScore

def completeRound (e : GameEngine) : GameEngine :=
  let e1 := { e with state := GameState.ROUND_COMPLETE }
  let e2 :=
    match e1.ticketManager with
    | some tm =>
      let reward := tm.calculateReward e1.round e1.currentVariation
      let tm1 := (tm.addReward reward).updateHighestRound e1.round
      { e1 with
        lastReward := reward
        ticketManager := some tm1
        score := e1.score + jsRound (reward * 100) }
    | none => { e1 with score := e1.score + e1.calculateRoundScore }
  let e3 := { e2 with round := e2.round + 1 }
  e3.updateDisplaySpeed

def failRound (e : GameEngine) : GameEngine :=
  let e1 := { e with state := GameState.ROUND_FAILED }
  match e1.ticketManager with
  | some tm => { e1 with ticketManager := some (tm.updateHighestRound e1.round) }
  | none => e1

def handlePlayerInput (e : GameEngine) (gemstone : Gem) : Bool × GameEngine :=
  if e.state ≠ GameState.PLAYER_INPUT then (false, e)
  else if e.expectedGem ≠ some gemstone then (false, e.failRound)
  else
    let e1 := { e with playerInput := e.playerInput ++ [gemstone] }
    if e1.playerInput.length = e1.pattern.length then (true, e1.completeRound)
    else (true, e1)

def resetGame (e : GameEngine) : GameEngine :=
  let e1 := e.initCore
  { e1 with lastReward := 0, variationManager := e1.variationManager.reset }

def getLastReward (e : GameEngine) : ℚ := e.lastReward

def getState (e : GameEngine) : GameState := e.state

def getRound (e : GameEngine) : ℕ := e.round

def getPlayerInput (e : GameEngine) : List Gem := e.playerInput

end GameEngine

/-- Trace of calling `selectVariation` on every consecutive round starting
from a fresh manager: `vmRun rands n` is the pair (result of the call at
round `n`, manager state after that call), with `rands r` the random
stream consumed by the call at round `r`. -/
def vmRun (rands : ℕ → List ℕ) : ℕ → Option GameVariation × VariationManager
  | 0 => (none, VariationManager.new)
  | n + 1 =>
    let s := vmRun rands n
    let r := s.2.selectVariation (n + 1) (rands (n + 1))
    (r.1, r.2.1)

/-! Concrete configuration mirroring the repository's test fixture
(`TicketEconomy.test.ts` mock config), used for witnesses and traces. -/

def mockDifficultyNormal : DifficultySetting where
  name := "Normal"
  reward_multiplier := 1
  pattern_display_time_multiplier := 1
  response_time_multiplier := 1
  description := "Standard challenge"

def mockCfg : TicketConfig where
  demo := { enabled := true, starting_balance := 100, allow_reset := true, show_statistics := true }
  game := { cost_to_play := 10, ticket_precision := 2 }
  difficulty_settings := [("normal", mockDifficultyNormal)]
  default_difficulty := "normal"
  base_reward := 5/2
  round_multipliers := [1/100, 1/10, 1/5, 7/20, 1/2, 7/10, 9/10, 23/20, 7/5, 17/10,
    2, 47/20, 11/4, 16/5, 37/10, 43/10, 5, 29/5, 67/10, 8]
  variation_bonuses :=
    { none := 1, reverse := 23/20, ghost := 23/20, speed_chaos := 6/5, color_shuffle := 23/20, selective := 6/5, reverse_combo := 27/20 }
  feedback_thresholds := { small := 1, medium := 5, large := 10, mega := 20 }
  limits :=
    { max_balance := 999999/100, min_balance := 0, max_single_payout := 200, max_round := 50 }

def tmMock : TicketManager := TicketManager.new mockCfg

/-- Configuration whose `max_single_payout` is not a multiple of the ticket
precision grid (`0.999` with precision 2): rounding after the clamp can then
exceed the cap. -/
def cfgCE : TicketConfig where
  demo := { enabled := true, starting_balance := 100, allow_reset := true, show_statistics := true }
  game := { cost_to_play := 10, ticket_precision := 2 }
  difficulty_settings := [("normal", mockDifficultyNormal)]
  default_difficulty := "normal"
  base_reward := 10
  round_multipliers := List.replicate 20 1
  variation_bonuses :=
    { none := 1, reverse := 1, ghost := 1, speed_chaos := 1, color_shuffle := 1, selective := 1, reverse_combo := 1 }
  feedback_thresholds := { small := 1, medium := 5, large := 10, mega := 20 }
  limits :=
    { max_balance := 999999/100, min_balance := 0, max_single_payout := 999/1000, max_round := 50 }

def tmCE : TicketManager := TicketManager.new cfgCE

/-! Concrete session trace: complete round 1 successfully (earning a positive
reward), then fail round 2 with a wrong first input. All random draws are 0. -/

def engNew : GameEngine := GameEngine.new (some tmMock)

def engCalibration : GameEngine := (engNew.startGame (List.replicate 8 0)).1

def engCalibInput : GameEngine := engCalibration.startPlayerInput

/-- With all-zero draws the calibration pattern is
`[TRILLION, MARQUISE, CUSHION, EMERALD]`; entering it completes round 1. -/
def engRound1Complete : GameEngine :=
  ((((engCalibInput.handlePlayerInput Gem.TRILLION).2.handlePlayerInput
    Gem.MARQUISE).2.handlePlayerInput Gem.CUSHION).2.handlePlayerInput Gem.EMERALD).2

def engRound2 : GameEngine := (engRound1Complete.startGame (List.replicate 8 0)).1

/-- Round 2 expects EMERALD first (all-zero draws); TRILLION is wrong. -/
def engRound2Failed : GameEngine :=
  (engRound2.startPlayerInput.handlePlayerInput Gem.TRILLION).2

/-- Engine state used as a generic witness input: player-input phase of a
round-2 game with pattern `[EMERALD, TRILLION]` and no input yet. -/
def eW : GameEngine where
  state := GameState.PLAYER_INPUT
  round := 2
  pattern := [Gem.EMERALD, Gem.TRILLION]
  playerInput := []
  currentVariation := GameVariation.NONE
  previousVariation := none
  currentCombinationBase := none
  variationStartRound := 0
  timerSeconds := 8
  displaySpeed := 750
  score := 0
  ticketManager := none
  lastReward := 0
  variationManager := VariationManager.new

/-- Manager state after the round-2 selection (Ghost chosen). -/
def vmGhost : VariationManager where
  currentVariation := some GameVariation.GHOST
  previousVariation := some GameVariation.GHOST
  combinationBase := none
  tutorialsShown := []
  variationStartRound := 2

def unknownDifficultyKey : String := "easy"

/-! Helper lemmas -/

theorem jsRound_eq {x : ℚ} (n : ℤ) (h1 : (n:ℚ) ≤ x + 1/2) (h2 : x + 1/2 < (n:ℚ) + 1) :
    jsRound x = n := by
  unfold jsRound
  exact Int.floor_eq_iff.mpr ⟨h1, h2⟩

theorem cons_set_perm {α : Type _} : ∀ (t : List α) (m : ℕ) (a b : α), t[m]? = some b →
    (b :: t.set m a).Perm (a :: t)
  | [], m, a, b, h => by simp at h
  | c :: t, 0, a, b, h => by
    simp only [List.getElem?_cons_zero, Option.some.injEq] at h
    subst h
    exact List.Perm.swap a c t
  | c :: t, m + 1, a, b, h => by
    simp only [List.getElem?_cons_succ] at h
    have ih := cons_set_perm t m a b h
    show (b :: c :: t.set m a).Perm (a :: c :: t)
    exact (List.Perm.swap c b (t.set m a)).trans ((ih.cons c).trans (List.Perm.swap a c t))

/-- A JavaScript-style destructuring swap permutes the list. -/
theorem listSwap_perm {α : Type _} : ∀ (l : List α) (i j : ℕ), (listSwap l i j).Perm l
  | [], i, j => by simp [listSwap]
  | c :: t, 0, 0 => by simp [listSwap]
  | c :: t, 0, m + 1 => by
    unfold listSwap
    cases h : t[m]? with
    | none => simp [h]
    | some b =>
      simp only [List.getElem?_cons_zero, List.getElem?_cons_succ, h, List.set]
      exact cons_set_perm t m c b h
  | c :: t, n + 1, 0 => by
    unfold listSwap
    cases h : t[n]? with
    | none => simp [h]
    | some a =>
      simp only [List.getElem?_cons_zero, List.getElem?_cons_succ, h, List.set]
      exact cons_set_perm t n c a h
  | c :: t, n + 1, m + 1 => by
    unfold listSwap
    cases h1 : t[n]? with
    | none => simp [h1]
    | some a =>
      cases h2 : t[m]? with
      | none => simp [h1, h2]
      | some b =>
        simp only [List.getElem?_cons_succ, h1, h2, List.set]
        have ih := listSwap_perm t n m
        rw [listSwap, h1, h2] at ih
        exact ih.cons c

/-- The Fisher-Yates shuffle in `generateCalibrationPattern` permutes the
four gems, for every outcome of the random source. -/
theorem calibration_perm (rand : List ℕ) :
    ((GameEngine.generateCalibrationPattern rand).1).Perm gemTypes := by
  unfold GameEngine.generateCalibrationPattern gemTypes
  exact (listSwap_perm _ _ _).trans ((listSwap_perm _ _ _).trans (listSwap_perm _ _ _))

namespace VariationManager

theorem getAvailableVariations_ne_nil {r : ℕ} (h2 : 2 ≤ r) :
    getAvailableVariations r ≠ [] := by
  unfold getAvailableVariations
  rw [if_neg (by omega)]
  split_ifs <;> simp

theorem getAvailableVariations_nodup (r : ℕ) : (getAvailableVariations r).Nodup := by
  unfold getAvailableVariations
  split_ifs <;> decide

theorem round_bounds_of_length_pos {r : ℕ} (h : 1 < (getAvailableVariations r).length) :
    2 ≤ r ∧ r < 17 := by
  unfold getAvailableVariations at h
  split_ifs at h <;> simp_all <;> omega

theorem filter_ne_length_pos {α : Type _} [DecidableEq α] {l : List α} (hd : l.Nodup)
    (hl : 1 < l.length) (p : α) : 0 < (l.filter (fun v => v ≠ p)).length := by
  by_contra hcon
  have hnil : l.filter (fun v => v ≠ p) = [] := by
    cases hfil : l.filter (fun v => v ≠ p) with
    | nil => rfl
    | cons x xs => rw [hfil] at hcon; simp at hcon
  rw [List.filter_eq_nil_iff] at hnil
  match l, hl, hd, hnil with
  | x :: y :: t, hl, hd, hnil =>
    have hx : x = p := by have := hnil x (by simp); simpa using this
    have hy : y = p := by have := hnil y (by simp); simpa using this
    have hxy : ¬ x = y := by
      have h := hd
      simp only [List.nodup_cons, List.mem_cons, not_or] at h
      exact h.1.1
    exact hxy (hx.trans hy.symm)

/-- At a selection point the call always returns some variation and caches it
in both `currentVariation` and `previousVariation`. -/
theorem selectVariation_select (vm : VariationManager) (round : ℕ) (rand : List ℕ)
    (h2 : 2 ≤ round)
    (hsel : (round = 2 ∨ (2 < round ∧ (round - 2) % 3 = 0)) ∨ vm.currentVariation = none) :
    ∃ v, (vm.selectVariation round rand).1 = some v ∧
      (vm.selectVariation round rand).2.1.currentVariation = some v ∧
      (vm.selectVariation round rand).2.1.previousVariation = some v := by
  have hne := getAvailableVariations_ne_nil h2
  simp only [selectVariation]
  rw [if_neg (by simpa using hne), if_pos hsel]
  by_cases h17 : 17 ≤ round
  · rw [if_pos h17]
    exact ⟨GameVariation.REVERSE_COMBINATION, rfl, rfl, rfl⟩
  · rw [if_neg h17]
    cases hp : ({ vm with variationStartRound := round } : VariationManager).previousVariation with
    | none => exact ⟨_, rfl, rfl, rfl⟩
    | some p => exact ⟨_, rfl, rfl, rfl⟩

/-- Between selection points the cached variation is returned and the manager
state is untouched. -/
theorem selectVariation_cached (vm : VariationManager) (round : ℕ) (rand : List ℕ)
    (h2 : 2 ≤ round)
    (hns : ¬(round = 2 ∨ (2 < round ∧ (round - 2) % 3 = 0)))
    {g : GameVariation} (hc : vm.currentVariation = some g) :
    vm.selectVariation round rand = (some g, vm, rand) := by
  have hne := getAvailableVariations_ne_nil h2
  simp only [selectVariation]
  rw [if_neg (by simpa using hne), if_neg (by simp [hns, hc]), hc]

/-- Below round 17 a fresh selection avoids the previous variation whenever
the pool has more than one member. -/
theorem selectVariation_avoids (vm : VariationManager) (round : ℕ) (rand : List ℕ)
    (hsel : round = 2 ∨ (2 < round ∧ (round - 2) % 3 = 0))
    {p : GameVariation} (hp : vm.previousVariation = some p)
    (hlen : 1 < (getAvailableVariations round).length) :
    ∃ v, (vm.selectVariation round rand).1 = some v ∧ v ≠ p := by
  obtain ⟨h2, h17⟩ := round_bounds_of_length_pos hlen
  have hne := getAvailableVariations_ne_nil h2
  simp only [selectVariation]
  rw [if_neg (by simpa using hne), if_pos (Or.inl hsel), if_neg (by omega)]
  have hp1 : ({ vm with variationStartRound := round } : VariationManager).previousVariation
      = some p := hp
  rw [hp1]
  have hfil : 0 < ((getAvailableVariations round).filter (fun v => v ≠ p)).length :=
    filter_ne_length_pos (getAvailableVariations_nodup round) hlen p
  rw [if_pos hfil]
  refine ⟨_, rfl, ?_⟩
  have hlt : (draw rand ((getAvailableVariations round).filter (fun v => v ≠ p)).length).1
      < ((getAvailableVariations round).filter (fun v => v ≠ p)).length :=
    Nat.mod_lt _ hfil
  rw [List.getD_eq_getElem _ _ hlt]
  have hmem := List.getElem_mem hlt
  have := List.of_mem_filter hmem
  simpa using this

end VariationManager

theorem vmRun_succ (rands : ℕ → List ℕ) (n : ℕ) :
    vmRun rands (n + 1) =
      (((vmRun rands n).2.selectVariation (n + 1) (rands (n + 1))).1,
       ((vmRun rands n).2.selectVariation (n + 1) (rands (n + 1))).2.1) := rfl

theorem vmRun_one (rands : ℕ → List ℕ) : vmRun rands 1 = (none, VariationManager.new) := by
  have h0 : vmRun rands 0 = (none, VariationManager.new) := rfl
  rw [show (1:ℕ) = 0 + 1 from rfl, vmRun_succ, h0]
  simp [VariationManager.selectVariation, VariationManager.getAvailableVariations]

theorem vmRun_two (rands : ℕ → List ℕ) :
    vmRun rands 2 = (some GameVariation.GHOST, vmGhost) := by
  rw [show (2:ℕ) = 1 + 1 from rfl, vmRun_succ, vmRun_one]
  simp [VariationManager.selectVariation, VariationManager.getAvailableVariations,
    VariationManager.new, draw, Nat.mod_one, vmGhost]

theorem vmRun_three (rands : ℕ → List ℕ) :
    vmRun rands 3 = (some GameVariation.GHOST, vmGhost) := by
  rw [show (3:ℕ) = 2 + 1 from rfl, vmRun_succ, vmRun_two]
  rw [VariationManager.selectVariation_cached vmGhost 3 (rands 3) (by omega) (by omega) rfl]

theorem vmRun_four (rands : ℕ → List ℕ) :
    vmRun rands 4 = (some GameVariation.GHOST, vmGhost) := by
  rw [show (4:ℕ) = 3 + 1 from rfl, vmRun_succ, vmRun_three]
  rw [VariationManager.selectVariation_cached vmGhost 4 (rands 4) (by omega) (by omega) rfl]

theorem completeRound_playerInput (e : GameEngine) :
    e.completeRound.playerInput = e.playerInput := by
  obtain ⟨st, rd, pat, pin, cv, pv, ccb, vsr, ts, ds, sc, tmo, lr, vmgr⟩ := e
  cases tmo <;>
    simp [GameEngine.completeRound, GameEngine.updateDisplaySpeed] <;>
    split_ifs <;> rfl

theorem failRound_fields (e : GameEngine) :
    e.failRound.playerInput = e.playerInput ∧
    e.failRound.state = GameState.ROUND_FAILED ∧
    e.failRound.lastReward = e.lastReward := by
  obtain ⟨st, rd, pat, pin, cv, pv, ccb, vsr, ts, ds, sc, tmo, lr, vmgr⟩ := e
  cases tmo <;> simp [GameEngine.failRound]

theorem randomGems_length : ∀ (n : ℕ) (rand : List ℕ), (GameEngine.randomGems n rand).1.length = n
  | 0, _ => rfl
  | n + 1, rand => by
    simp [GameEngine.randomGems, randomGems_length n]

theorem checkForNewVariation_round (e : GameEngine) (rand : List ℕ) :
    ((e.checkForNewVariation rand).1).round = e.round := by
  unfold GameEngine.checkForNewVariation
  dsimp only
  cases (e.variationManager.selectVariation e.round rand).1 with
  | none => rfl
  | some v =>
    dsimp only
    split_ifs <;> rfl

/-- Reward for completing round 1 under the mock configuration:
`2.50 * 0.01 * 1 * 1 = 0.025`, rounded half-up at precision 2 to `0.03`. -/
theorem mock_reward_round1 : tmMock.calculateReward 1 GameVariation.NONE = 3/100 := by
  norm_num [TicketManager.calculateReward, tmMock, TicketManager.new,
    TicketManager.getRoundMultiplier, TicketManager.getVariationBonus,
    TicketManager.getDifficultyMultiplier, TicketManager.roundToTicketPrecision,
    mockCfg, mockDifficultyNormal, min_def, List.lookup]
  rw [jsRound_eq 3 (by norm_num) (by norm_num)]
  norm_num

/-! Claim theorems -/

/-- C1, counterexample: the claim says the pool for round 2 is exactly
Reverse and that `selectVariation(2)` always returns Reverse; in the code
the round-2 pool is `[GHOST]` and the call (here with random outcome 0, on
a fresh manager after the round-1 call) returns Ghost, not Reverse. -/
theorem early_rounds_counterexample :
    VariationManager.getAvailableVariations 2 ≠ [GameVariation.REVERSE] ∧
    (vmRun (fun _ => [0]) 2).1 ≠ some GameVariation.REVERSE := by decide

/-- C1 (amended): for every round 2 ≤ r ≤ 4 the available pool is exactly
`{Ghost}`, and on a fresh manager called on consecutive rounds,
`selectVariation` returns Ghost at rounds 2, 3 and 4 for every outcome of
the random source. -/
theorem early_rounds_ghost (rands : ℕ → List ℕ) :
    VariationManager.getAvailableVariations 2 = [GameVariation.GHOST] ∧
    VariationManager.getAvailableVariations 3 = [GameVariation.GHOST] ∧
    VariationManager.getAvailableVariations 4 = [GameVariation.GHOST] ∧
    (vmRun rands 2).1 = some GameVariation.GHOST ∧
    (vmRun rands 3).1 = some GameVariation.GHOST ∧
    (vmRun rands 4).1 = some GameVariation.GHOST := by
  refine ⟨by decide, by decide, by decide, ?_, ?_, ?_⟩
  · rw [vmRun_two]
  · rw [vmRun_three]
  · rw [vmRun_four]

/-- C2: in state PlayerInput, submitting the expected next gem (forward
index, or reverse index under Reverse / ReverseCombination, as computed by
`expectedGem`) returns true and appends exactly that gem to `playerInput`;
submitting any other gem returns false, leaves `playerInput` unchanged and
moves the machine to RoundFailed. -/
theorem handlePlayerInput_spec (e : GameEngine) (g : Gem)
    (hst : e.state = GameState.PLAYER_INPUT) :
    (e.expectedGem = some g →
      (e.handlePlayerInput g).1 = true ∧
      (e.handlePlayerInput g).2.playerInput = e.playerInput ++ [g]) ∧
    (e.expectedGem ≠ some g →
      (e.handlePlayerInput g).1 = false ∧
      (e.handlePlayerInput g).2.playerInput = e.playerInput ∧
      (e.handlePlayerInput g).2.state = GameState.ROUND_FAILED) := by
  unfold GameEngine.handlePlayerInput
  rw [if_neg (by simp [hst])]
  constructor
  · intro hexp
    rw [if_neg (by simp [hexp])]
    dsimp only
    split_ifs with hc
    · exact ⟨rfl, completeRound_playerInput _⟩
    · exact ⟨rfl, rfl⟩
  · intro hexp
    rw [if_pos (by simpa using hexp)]
    exact ⟨rfl, (failRound_fields e).1, (failRound_fields e).2.1⟩

/-- C2, witness: a concrete player-input state with pattern
`[EMERALD, TRILLION]`; EMERALD is accepted and appended, TRILLION is
rejected without mutation and fails the round. -/
theorem handlePlayerInput_spec_witness :
    eW.state = GameState.PLAYER_INPUT ∧
    eW.expectedGem = some Gem.EMERALD ∧
    (eW.handlePlayerInput Gem.EMERALD).1 = true ∧
    (eW.handlePlayerInput Gem.EMERALD).2.playerInput = eW.playerInput ++ [Gem.EMERALD] ∧
    (eW.handlePlayerInput Gem.TRILLION).1 = false ∧
    (eW.handlePlayerInput Gem.TRILLION).2.playerInput = eW.playerInput ∧
    (eW.handlePlayerInput Gem.TRILLION).2.state = GameState.ROUND_FAILED :=
  ⟨rfl, by decide,
    ((handlePlayerInput_spec eW Gem.EMERALD rfl).1 (by decide)).1,
    ((handlePlayerInput_spec eW Gem.EMERALD rfl).1 (by decide)).2,
    ((handlePlayerInput_spec eW Gem.TRILLION rfl).2 (by decide)).1,
    ((handlePlayerInput_spec eW Gem.TRILLION rfl).2 (by decide)).2.1,
    ((handlePlayerInput_spec eW Gem.TRILLION rfl).2 (by decide)).2.2⟩

/-- C3, counterexample: a session that completes round 1 with the positive
reward `0.03` and then fails round 2 still reports `getLastReward = 0.03`,
not 0: `failRound` does not reset `lastReward`, contradicting the claim. -/
theorem lastReward_after_fail_counterexample :
    engRound1Complete.state = GameState.ROUND_COMPLETE ∧
    engRound1Complete.getLastReward = 3/100 ∧
    engRound2Failed.state = GameState.ROUND_FAILED ∧
    engRound2Failed.getLastReward ≠ 0 := by
  refine ⟨by decide, ?_, by decide, ?_⟩
  · show engRound1Complete.lastReward = 3/100
    have h : engRound1Complete.lastReward = tmMock.calculateReward 1 GameVariation.NONE := rfl
    rw [h, mock_reward_round1]
  · show engRound2Failed.lastReward ≠ 0
    have h : engRound2Failed.lastReward = tmMock.calculateReward 1 GameVariation.NONE := rfl
    rw [h, mock_reward_round1]
    norm_num

/-- C3 (amended): `lastReward` is 0 when no round has completed yet (fresh
engine) and after `reset`; a failed submission leaves `lastReward`
unchanged, so after a failure it retains the reward of the most recent
completed round rather than being reset to 0. -/
theorem lastReward_amended :
    (∀ tmo : Option TicketManager, (GameEngine.new tmo).getLastReward = 0) ∧
    (∀ e : GameEngine, e.resetGame.getLastReward = 0) ∧
    (∀ (e : GameEngine) (g : Gem), (e.handlePlayerInput g).1 = false →
      (e.handlePlayerInput g).2.getLastReward = e.getLastReward) := by
  refine ⟨fun tmo => rfl, fun e => rfl, fun e g h => ?_⟩
  unfold GameEngine.handlePlayerInput at h ⊢
  dsimp only at h ⊢
  split_ifs at h ⊢ with h1 h2
  · rfl
  · exact (failRound_fields e).2.2

/-- C3, witness: a rejected submission on a fresh engine keeps
`lastReward` at 0. -/
theorem lastReward_amended_witness :
    ((GameEngine.new none).handlePlayerInput Gem.EMERALD).1 = false ∧
    ((GameEngine.new none).handlePlayerInput Gem.EMERALD).2.getLastReward =
      (GameEngine.new none).getLastReward :=
  ⟨by decide, lastReward_amended.2.2 (GameEngine.new none) Gem.EMERALD (by decide)⟩

/-- C4, counterexample: with `max_single_payout = 0.999` (not on the
precision-2 grid) and a raw reward of 10, the clamp yields 0.999 but
half-up rounding to 2 decimals returns `1.00 > 0.999`: as stated, for
arbitrary configurations `calculateReward` can exceed `maxSinglePayout`. -/
theorem reward_clamp_counterexample :
    tmCE.calculateReward 1 GameVariation.NONE > tmCE.config.limits.max_single_payout := by
  norm_num [TicketManager.calculateReward, tmCE, TicketManager.new,
    TicketManager.getRoundMultiplier, TicketManager.getVariationBonus,
    TicketManager.getDifficultyMultiplier, TicketManager.roundToTicketPrecision,
    cfgCE, mockDifficultyNormal, min_def, List.lookup]
  rw [jsRound_eq 100 (by norm_num) (by norm_num)]
  norm_num

/-- C4 (amended): the product is clamped above by `maxSinglePayout` before
rounding; consequently, whenever `maxSinglePayout` is an integer multiple
of `10^(-precision)` (an integer `k` after scaling by `10^precision`, as
in every shipped configuration), `calculateReward` never exceeds
`maxSinglePayout`, for every round and variation. -/
theorem reward_le_max (tm : TicketManager) (round : ℕ) (variation : GameVariation)
    (k : ℤ)
    (hk : tm.config.limits.max_single_payout * 10 ^ tm.config.game.ticket_precision = (k : ℚ)) :
    tm.calculateReward round variation ≤ tm.config.limits.max_single_payout := by
  unfold TicketManager.calculateReward TicketManager.roundToTicketPrecision jsRound
  dsimp only
  set M := tm.config.limits.max_single_payout with hM
  set m : ℚ := 10 ^ tm.config.game.ticket_precision with hm
  set x := min (tm.config.base_reward * tm.getRoundMultiplier round *
    tm.getVariationBonus variation * tm.getDifficultyMultiplier) M with hx
  have hm0 : (0:ℚ) < m := by positivity
  have hxM : x ≤ M := min_le_right _ _
  have h1 : x * m ≤ (k:ℚ) := by
    rw [← hk]
    exact mul_le_mul_of_nonneg_right hxM hm0.le
  have h2 : ⌊x * m + 1/2⌋ ≤ k := by
    calc ⌊x * m + 1/2⌋ ≤ ⌊(k:ℚ) + 1/2⌋ := Int.floor_le_floor (by linarith)
      _ = k + ⌊(1/2 : ℚ)⌋ := by rw [add_comm ((k:ℚ)) (1/2), Int.floor_add_int]; ring
      _ = k := by
          have h12 : ⌊(1/2 : ℚ)⌋ = 0 := Int.floor_eq_iff.mpr (by norm_num)
          rw [h12, add_zero]
  have h3 : ((⌊x * m + 1/2⌋ : ℤ) : ℚ) ≤ (k:ℚ) := by exact_mod_cast h2
  have h4 : ((⌊x * m + 1/2⌋ : ℤ) : ℚ) / m ≤ (k:ℚ) / m :=
    (div_le_div_iff_of_pos_right hm0).mpr h3
  have h5 : (k:ℚ) / m = M := by
    rw [← hk]
    field_simp
  calc ((⌊x * m + 1/2⌋ : ℤ) : ℚ) / m ≤ (k:ℚ) / m := h4
    _ = M := h5

/-- C4, witness: the mock configuration has `maxSinglePayout = 200.00` on
the precision grid (`200 * 100 = 20000`), so the reward at round 5 is
bounded by 200. -/
theorem reward_le_max_witness :
    tmMock.config.limits.max_single_payout * 10 ^ tmMock.config.game.ticket_precision =
      ((20000 : ℤ) : ℚ) ∧
    tmMock.calculateReward 5 GameVariation.NONE ≤ tmMock.config.limits.max_single_payout := by
  have hk : tmMock.config.limits.max_single_payout * 10 ^ tmMock.config.game.ticket_precision =
      ((20000 : ℤ) : ℚ) := by
    norm_num [tmMock, TicketManager.new, mockCfg]
  exact ⟨hk, reward_le_max tmMock 5 GameVariation.NONE 20000 hk⟩

/-- C5: when `selectVariation` is called on every consecutive round from a
fresh manager, the variation selected at a boundary round `b` (round 2, or
`b > 2` with `(b - 2) % 3 = 0`) is returned unchanged at rounds `b + 1`
and `b + 2`, and at the next boundary `b + 3` the newly selected variation
differs from the window's variation whenever the eligible pool there has
more than one member. -/
theorem variation_window_spec (rands : ℕ → List ℕ) (b : ℕ)
    (hb : b = 2 ∨ (2 < b ∧ (b - 2) % 3 = 0)) :
    (vmRun rands (b + 1)).1 = (vmRun rands b).1 ∧
    (vmRun rands (b + 2)).1 = (vmRun rands b).1 ∧
    (1 < (VariationManager.getAvailableVariations (b + 3)).length →
      (vmRun rands (b + 3)).1 ≠ (vmRun rands b).1) := by
  have h2 : 2 ≤ b := by omega
  obtain ⟨m, rfl⟩ : ∃ m, b = m + 1 := ⟨b - 1, by omega⟩
  obtain ⟨v, hv, hvc, hvp⟩ :=
    VariationManager.selectVariation_select (vmRun rands m).2 (m + 1) (rands (m + 1)) h2
      (Or.inl hb)
  have hb1 : (vmRun rands (m + 1)).1 = some v := by rw [vmRun_succ]; exact hv
  have hs1c : (vmRun rands (m + 1)).2.currentVariation = some v := by rw [vmRun_succ]; exact hvc
  have hs1p : (vmRun rands (m + 1)).2.previousVariation = some v := by rw [vmRun_succ]; exact hvp
  have hstep2 := VariationManager.selectVariation_cached (vmRun rands (m + 1)).2
    (m + 2) (rands (m + 2)) (by omega) (by omega) hs1c
  have hb2 : (vmRun rands (m + 1 + 1)).1 = some v := by rw [vmRun_succ, hstep2]
  have hs2 : (vmRun rands (m + 1 + 1)).2 = (vmRun rands (m + 1)).2 := by rw [vmRun_succ, hstep2]
  have hstep3 := VariationManager.selectVariation_cached (vmRun rands (m + 1 + 1)).2
    (m + 3) (rands (m + 3)) (by omega) (by omega) (by rw [hs2]; exact hs1c)
  have hb3 : (vmRun rands (m + 1 + 2)).1 = some v := by
    rw [vmRun_succ]
    rw [show m + 1 + 1 + 1 = m + 3 by omega] at hstep3 ⊢
    rw [hstep3]
  have hs3 : (vmRun rands (m + 1 + 2)).2 = (vmRun rands (m + 1)).2 := by
    rw [vmRun_succ]
    rw [show m + 1 + 1 + 1 = m + 3 by omega] at hstep3 ⊢
    rw [hstep3, hs2]
  refine ⟨hb1 ▸ hb2, hb1 ▸ hb3, ?_⟩
  intro hlen
  have hselB : m + 1 + 3 = 2 ∨ (2 < m + 1 + 3 ∧ (m + 1 + 3 - 2) % 3 = 0) := by omega
  rw [show m + 1 + 3 = m + 1 + 2 + 1 by omega] at hselB hlen ⊢
  obtain ⟨w, hw, hwne⟩ := VariationManager.selectVariation_avoids (vmRun rands (m + 1 + 2)).2
    (m + 1 + 2 + 1) (rands (m + 1 + 2 + 1)) hselB (by rw [hs3]; exact hs1p) hlen
  rw [vmRun_succ, hw, hb1]
  simp [hwne]

/-- C5, witness: boundary `b = 2` with all-zero draws: Ghost persists at
rounds 3 and 4, the round-5 pool has two members, and the round-5
selection (SelectiveAttention) differs from Ghost. -/
theorem variation_window_spec_witness :
    (2 = 2 ∨ (2 < 2 ∧ (2 - 2) % 3 = 0)) ∧
    ((vmRun (fun _ => [0]) (2 + 1)).1 = (vmRun (fun _ => [0]) 2).1 ∧
     (vmRun (fun _ => [0]) (2 + 2)).1 = (vmRun (fun _ => [0]) 2).1 ∧
     (1 < (VariationManager.getAvailableVariations (2 + 3)).length →
       (vmRun (fun _ => [0]) (2 + 3)).1 ≠ (vmRun (fun _ => [0]) 2).1)) ∧
    (vmRun (fun _ => [0]) (2 + 3)).1 ≠ (vmRun (fun _ => [0]) 2).1 :=
  ⟨Or.inl rfl, variation_window_spec (fun _ => [0]) 2 (Or.inl rfl),
    (variation_window_spec (fun _ => [0]) 2 (Or.inl rfl)).2.2 (by decide)⟩

/-- C6: with base reward 2.50, a 20-entry multiplier table, bonus 1.00 for
the None variation, difficulty multiplier 1.00, precision 2 and a payout
cap of at least 32.50, round 25 extrapolates beyond the table:
`calculateReward(25, NONE) = 2.50 * (8.00 + 5 * 1.0) = 32.50`. -/
theorem reward_extrapolation (tm : TicketManager)
    (hbase : tm.config.base_reward = 5/2)
    (hlen : tm.config.round_multipliers.length = 20)
    (hnone : tm.config.variation_bonuses.none = 1)
    (hdiff : tm.getDifficultyMultiplier = 1)
    (hprec : tm.config.game.ticket_precision = 2)
    (hmax : 65/2 ≤ tm.config.limits.max_single_payout) :
    tm.calculateReward 25 GameVariation.NONE = 65/2 := by
  unfold TicketManager.calculateReward TicketManager.getRoundMultiplier
    TicketManager.getVariationBonus TicketManager.roundToTicketPrecision
  dsimp only
  rw [hbase, hlen, hnone, hdiff, hprec]
  norm_num
  rw [min_eq_left hmax]
  rw [jsRound_eq 3250 (by norm_num) (by norm_num)]
  norm_num

/-- C6, witness: the mock configuration satisfies all the hypotheses and
yields exactly 32.50 at round 25 with no variation. -/
theorem reward_extrapolation_witness :
    tmMock.config.base_reward = 5/2 ∧
    tmMock.config.round_multipliers.length = 20 ∧
    tmMock.config.variation_bonuses.none = 1 ∧
    tmMock.getDifficultyMultiplier = 1 ∧
    tmMock.config.game.ticket_precision = 2 ∧
    65/2 ≤ tmMock.config.limits.max_single_payout ∧
    tmMock.calculateReward 25 GameVariation.NONE = 65/2 := by
  have hdiff : tmMock.getDifficultyMultiplier = 1 := by
    simp [TicketManager.getDifficultyMultiplier, tmMock, TicketManager.new, mockCfg,
      List.lookup, mockDifficultyNormal]
  have hmax : (65:ℚ)/2 ≤ tmMock.config.limits.max_single_payout := by
    norm_num [tmMock, TicketManager.new, mockCfg]
  exact ⟨rfl, rfl, rfl, hdiff, rfl, hmax,
    reward_extrapolation tmMock rfl rfl rfl hdiff rfl hmax⟩

/-- C7: `deductGameCost` fails without any mutation when the balance is
below the cost to play; otherwise it succeeds, subtracts the cost from the
balance, adds it to `totalSpent`, and increments `gamesPlayed` by one. -/
theorem deductGameCost_spec (tm : TicketManager) :
    (tm.balance < tm.config.game.cost_to_play →
      tm.deductGameCost.1 = false ∧
      tm.deductGameCost.2.balance = tm.balance ∧
      tm.deductGameCost.2.totalSpent = tm.totalSpent ∧
      tm.deductGameCost.2.gamesPlayed = tm.gamesPlayed) ∧
    (tm.config.game.cost_to_play ≤ tm.balance →
      tm.deductGameCost.1 = true ∧
      tm.deductGameCost.2.balance = tm.balance - tm.config.game.cost_to_play ∧
      tm.deductGameCost.2.totalSpent = tm.totalSpent + tm.config.game.cost_to_play ∧
      tm.deductGameCost.2.gamesPlayed = tm.gamesPlayed + 1) := by
  unfold TicketManager.deductGameCost TicketManager.canAffordGame
  constructor
  · intro h
    rw [if_pos (by simpa using not_le.mpr h)]
    exact ⟨rfl, rfl, rfl, rfl⟩
  · intro h
    rw [if_neg (by simpa using h)]
    exact ⟨rfl, rfl, rfl, rfl⟩

/-- C7, witness: mock manager with balance 100 and cost 10: the deduction
succeeds, leaving balance 90, spent 10, one game played. -/
theorem deductGameCost_spec_witness :
    tmMock.config.game.cost_to_play ≤ tmMock.balance ∧
    tmMock.deductGameCost.1 = true ∧
    tmMock.deductGameCost.2.balance = tmMock.balance - tmMock.config.game.cost_to_play ∧
    tmMock.deductGameCost.2.totalSpent = tmMock.totalSpent + tmMock.config.game.cost_to_play ∧
    tmMock.deductGameCost.2.gamesPlayed = tmMock.gamesPlayed + 1 := by
  have h : tmMock.config.game.cost_to_play ≤ tmMock.balance := by
    norm_num [tmMock, TicketManager.new, mockCfg]
  exact ⟨h, (deductGameCost_spec tmMock).2 h⟩

/-- C8: for a round of at least 2, starting the game generates a pattern
of length `4 + floor((round - 1) / 3)`; at round 1 the generated
calibration pattern has length exactly 4, for every outcome of the random
source. -/
theorem generated_pattern_length (e : GameEngine) (rand : List ℕ) :
    (2 ≤ e.round → ((e.startGame rand).1.pattern).length = 4 + (e.round - 1) / 3) ∧
    (e.round = 1 → ((e.startGame rand).1.pattern).length = 4) := by
  constructor
  · intro h2
    unfold GameEngine.startGame
    rw [if_neg (by omega)]
    have hr := checkForNewVariation_round e rand
    have hlen : (e.checkForNewVariation rand).1.getPatternLength = 4 + (e.round - 1) / 3 := by
      unfold GameEngine.getPatternLength
      rw [hr, if_neg (by omega)]
      rfl
    dsimp only
    split_ifs
    · show (GameEngine.randomGems ((e.checkForNewVariation rand).1.getPatternLength) _).1.length = _
      rw [randomGems_length, hlen]
    · show (GameEngine.randomGems ((e.checkForNewVariation rand).1.getPatternLength) _).1.length = _
      rw [randomGems_length, hlen]
  · intro h1
    unfold GameEngine.startGame
    rw [if_pos h1]
    have := (calibration_perm rand).length_eq
    simpa using this

/-- C8, witness: the round-2 engine generates a pattern of length
`4 + floor(1 / 3) = 4`. -/
theorem generated_pattern_length_witness :
    2 ≤ eW.round ∧
    ((eW.startGame (List.replicate 8 0)).1.pattern).length = 4 + (eW.round - 1) / 3 :=
  ⟨by decide, (generated_pattern_length eW (List.replicate 8 0)).1 (by decide)⟩

/-- C9: for every ticket-manager argument and every sequence of random
choices, starting a round-1 game produces a calibration pattern that is a
permutation of the 4 gem symbols: it has length 4 and contains each gem
exactly once. -/
theorem calibration_permutation (tmo : Option TicketManager) (rand : List ℕ) :
    (((GameEngine.new tmo).startGame rand).1.pattern).Perm gemTypes ∧
    (((GameEngine.new tmo).startGame rand).1.pattern).length = 4 ∧
    ∀ g : Gem, (((GameEngine.new tmo).startGame rand).1.pattern).count g = 1 := by
  have hpat : ((GameEngine.new tmo).startGame rand).1.pattern =
      (GameEngine.generateCalibrationPattern rand).1 := by
    simp [GameEngine.new, GameEngine.initCore, GameEngine.updateDisplaySpeed,
      GameEngine.startGame]
  rw [hpat]
  have hperm := calibration_perm rand
  refine ⟨hperm, ?_, ?_⟩
  · rw [hperm.length_eq]; rfl
  · intro g
    rw [hperm.count_eq]
    cases g <;> decide

/-- C10: `setDifficulty` with a key absent from the difficulty-settings
table is a silent no-op, so the reward computation is unaffected. -/
theorem setDifficulty_unknown (tm : TicketManager) (key : String)
    (h : tm.config.difficulty_settings.lookup key = none) :
    tm.setDifficulty key = tm ∧
    ∀ (r : ℕ) (v : GameVariation),
      (tm.setDifficulty key).calculateReward r v = tm.calculateReward r v := by
  have h1 : tm.setDifficulty key = tm := by
    unfold TicketManager.setDifficulty
    rw [h]
    rfl
  exact ⟨h1, fun r v => by rw [h1]⟩

/-- C10, witness: the mock table has no entry for the key used here, so
the setter leaves the manager unchanged and the reward at round 3 is
unaffected. -/
theorem setDifficulty_unknown_witness :
    tmMock.config.difficulty_settings.lookup unknownDifficultyKey = none ∧
    tmMock.setDifficulty unknownDifficultyKey = tmMock ∧
    (tmMock.setDifficulty unknownDifficultyKey).calculateReward 3 GameVariation.NONE =
      tmMock.calculateReward 3 GameVariation.NONE :=
  ⟨by decide, (setDifficulty_unknown tmMock unknownDifficultyKey (by decide)).1,
    (setDifficulty_unknown tmMock unknownDifficultyKey (by decide)).2 3 GameVariation.NONE⟩
